import Mathlib

/-!
Shallow embedding of `src/app.py` (catalog-csv-filtering): the row
transformation, validation and batch-processing pipeline.

Modelling conventions:
* A CSV row (Python `dict` from `csv.DictReader`) is an association list
  `List (String × String)`; an absent field is an absent key, and
  `row.get(k, d)` is `rget row k d`.
* Python string methods used by the source (`strip`, `lower`, `upper`,
  `split(',')`, `replace(c, '')`, `startswith`, `isalnum`) are modelled over
  ASCII text by the `py*` helpers below.
* CPython `float(...)` followed by `f"{x:.2f}"` / `f"{x:g}"` is modelled by
  exact decimal arithmetic (`parsePyFloat` returning a value `n / 10^scale`
  together with `formatFixed2` / `pyFormatG`).  Exotic float syntax
  (exponents, underscores, `inf`/`nan`) and ties that are inexact in binary
  are outside the modelled domain; every concrete input used below is a plain
  decimal literal on which the model agrees with CPython.
* Fallible code returns `Except`: `transform_row` in the source returns
  `(output, None)` on success and `(None, msg)` on failure; here it returns
  `Except TransformError Output`, with `renderErr` producing the exact
  message strings the source builds.
-/

/-- The set of characters stripped by Python `str.strip()` on ASCII text. -/
def isPySpace (c : Char) : Bool :=
  c = ' ' ∨ c = '\t' ∨ c = '\n' ∨ c = '\r' ∨ c = '\x0b' ∨ c = '\x0c'

/-- Python `str.strip()` (ASCII whitespace). -/
def pyStrip (s : String) : String :=
  String.mk (((s.data.dropWhile isPySpace).reverse.dropWhile isPySpace).reverse)

/-- Python `str.lower()` (ASCII). -/
def toLowerPy (s : String) : String :=
  String.mk (s.data.map Char.toLower)

/-- Python `str.upper()` (ASCII). -/
def toUpperPy (s : String) : String :=
  String.mk (s.data.map Char.toUpper)

/-- Python `str.replace(c, '')` for a single-character pattern: removes every
occurrence of `c`. -/
def pyRemoveChar (c : Char) (s : String) : String :=
  String.mk (s.data.filter (fun d => d ≠ c))

/-- Python `e.isalnum()` (ASCII): nonempty and all characters alphanumeric. -/
def pyIsAlnum (s : String) : Bool :=
  s ≠ "" && s.data.all Char.isAlphanum

/-- Python `s.split(',')` over the character list (single-character
separator; structural, kernel-reducible). -/
def splitOnComma (l : List Char) : List (List Char) :=
  l.foldr
    (fun d acc =>
      match acc with
      | [] => [[d]]
      | cur :: rest => if d = ',' then [] :: cur :: rest else (d :: cur) :: rest)
    [[]]

/-- Python `','.join(parts)` (structural, kernel-reducible). -/
def strJoin (sep : String) : List String → String
  | [] => ""
  | [x] => x
  | x :: y :: rest => x ++ sep ++ strJoin sep (y :: rest)

/-- Python `s.startswith(p)` (structural, kernel-reducible). -/
def strStarts (s p : String) : Bool :=
  p.data.isPrefixOf s.data

/-- A raw or normalized record: ordered mapping from field name to value. -/
def Row : Type := List (String × String)

/-- Python `dict.get(k, d)`: the value bound to `k`, or `d` if `k` is absent. -/
def rget (row : Row) (k d : String) : String :=
  match row with
  | [] => d
  | (k', v) :: rest => if k' = k then v else rget rest k d

/-- Python `dict` insertion: overwrites an existing binding in place,
otherwise appends at the end. -/
def dictInsert (row : Row) (k v : String) : Row :=
  match row with
  | [] => [(k, v)]
  | (k', v') :: rest =>
      if k' = k then (k, v) :: rest else (k', v') :: dictInsert rest k v

/-- The byte-order-mark character U+FEFF removed by the source. -/
def bomChar : Char := Char.ofNat 0xFEFF

/-- Embeds `normalize_headers` (src/app.py:234-242): for each field, skip it when the
raw name is empty; otherwise remove every BOM character, strip whitespace, and
bind the value under the cleaned name (later collisions overwrite). -/
def normalize_headers (row : Row) : Row :=
  row.foldl
    (fun acc kv =>
      if kv.1 = "" then acc
      else dictInsert acc (pyStrip (pyRemoveChar bomChar kv.1)) kv.2)
    []

/-- Embeds `extract_short_barcodes` (src/app.py:6-14). -/
def extract_short_barcodes (barcode_str : String) : String :=
  if barcode_str = "" ∨ pyStrip barcode_str = "" then "NULL"
  else
    let entries := (splitOnComma barcode_str.data).map (fun l => pyStrip (String.mk l))
    let short_codes :=
      entries.filter (fun e => (e.length == 3 || e.length == 4) && pyIsAlnum e)
    if short_codes.isEmpty then "NULL" else strJoin "," short_codes

/-- Embeds `extract_long_barcodes` (src/app.py:16-24). -/
def extract_long_barcodes (barcode_str : String) : String :=
  if barcode_str = "" ∨ pyStrip barcode_str = "" then "NULL"
  else
    let entries := (splitOnComma barcode_str.data).map (fun l => pyStrip (String.mk l))
    let long_codes := entries.filter (fun e => decide (4 < e.length))
    if long_codes.isEmpty then "NULL" else strJoin "," long_codes

/-- Decimal value `num / 10^scale`: the model of a CPython float produced by
`float(...)` on a plain decimal literal. -/
def parsePyFloat (s : String) : Option (ℤ × ℕ) :=
  let t := (pyStrip s).data
  let signed : Int × List Char :=
    match t with
    | '+' :: r => (1, r)
    | '-' :: r => (-1, r)
    | r => (1, r)
  let sign := signed.1
  let body := signed.2
  let intDs := body.takeWhile Char.isDigit
  let rest := body.drop intDs.length
  let natVal : List Char → ℤ := fun l =>
    (l.foldl (fun acc c => 10 * acc + (c.toNat - '0'.toNat)) 0 : ℕ)
  match rest with
  | [] => if intDs.isEmpty then none else some (sign * natVal intDs, 0)
  | '.' :: r3 =>
      let fr := r3.takeWhile Char.isDigit
      if ¬ (r3.drop fr.length).isEmpty then none
      else if intDs.isEmpty ∧ fr.isEmpty then none
      else some (sign * natVal (intDs ++ fr), fr.length)
  | _ => none

/-- Round `a / 10^k` to the nearest integer, ties to even (the rounding CPython
`%.2f` applies; exact on the decimals at issue here). -/
def rheInt (a : ℤ) (k : ℕ) : ℤ :=
  let d : ℤ := 10 ^ k
  let q := a / d
  let r := a % d
  if 2 * r < d then q
  else if d < 2 * r then q + 1
  else if q % 2 = 0 then q else q + 1

/-- Render a nonnegative cent count as `d.dd`. -/
def centsRepr (c : ℕ) : String :=
  let frac := c % 100
  Nat.repr (c / 100) ++ "." ++ (if frac < 10 then "0" ++ Nat.repr frac else Nat.repr frac)

/-- CPython `f"{x:.2f}"` on the decimal `n / 10^sc`. -/
def formatFixed2 (n : ℤ) (sc : ℕ) : String :=
  let cents := rheInt (n * 100) sc
  if cents < 0 then "-" ++ centsRepr cents.natAbs else centsRepr cents.natAbs

/-- Embeds `format_price` (src/app.py:26-36): empty/blank input gives `$0.00`;
otherwise every `$` is removed (`price_str.replace('$', '')`), the result is
stripped and parsed, and the value is rendered with two decimal places;
a failed parse gives `$0.00`. -/
def format_price (price_str : String) : String :=
  if price_str = "" ∨ pyStrip price_str = "" then "$0.00"
  else
    let clean_price := pyStrip (pyRemoveChar '$' price_str)
    match parsePyFloat clean_price with
    | some d => "$" ++ formatFixed2 d.1 d.2
    | none => "$0.00"

/-- Greedy match of `\d+\.?\d*` starting at a position whose head is a digit:
maximal digits, then a dot if present, then maximal digits. -/
def numRunAt (l : List Char) : List Char :=
  let ds1 := l.takeWhile Char.isDigit
  let r1 := l.drop ds1.length
  match r1 with
  | '.' :: r2 => ds1 ++ '.' :: r2.takeWhile Char.isDigit
  | _ => ds1

/-- Models `re.search` for the pattern of one-or-more digits, an optional dot and optional digits: the leftmost-greedy match, if any. -/
def findNumRun : List Char → Option (List Char)
  | [] => none
  | c :: rest =>
      if c.isDigit then some (numRunAt (c :: rest)) else findNumRun rest

/-- Embeds `extract_numeric_with_unit` (src/app.py:38-46). -/
def extract_numeric_with_unit (value_str : String) (unit : String) : String :=
  if value_str = "" ∨ pyStrip value_str = "" then "N/A"
  else
    match findNumRun value_str.data with
    | some run => String.mk run ++ unit
    | none => "N/A"

/-- Number of decimal digits of `n` (`0` has one digit). -/
def digitCount (n : ℕ) : ℕ := (Nat.repr n).length

/-- Round a natural `a / 10^k` half-to-even. -/
def rheNat (a : ℕ) (k : ℕ) : ℕ :=
  let d := 10 ^ k
  let q := a / d
  let r := a % d
  if 2 * r < d then q
  else if d < 2 * r then q + 1
  else if q % 2 = 0 then q else q + 1

/-- A run of `k` zero characters. -/
def zeroStr (k : ℕ) : String := String.mk (List.replicate k '0')

/-- Strip trailing `'0'` characters. -/
def stripTrailZeros (s : String) : String :=
  String.mk ((s.data.reverse.dropWhile (fun c => c = '0')).reverse)

/-- Exponent suffix of `%g`: `e±dd` with at least two exponent digits. -/
def expSuffix (e : ℤ) : String :=
  let a := e.natAbs
  "e" ++ (if e < 0 then "-" else "+") ++
    (if a < 10 then "0" ++ Nat.repr a else Nat.repr a)

/-- CPython `f"{x:g}"` on the decimal `n / 10^sc`: round to 6 significant
digits, strip trailing zeros, and use exponent notation when the decimal
exponent is `< -4` or `≥ 6`. -/
def pyFormatG (n : ℤ) (sc : ℕ) : String :=
  if n = 0 then "0"
  else
    let sign := if n < 0 then "-" else ""
    let a := n.natAbs
    let L := digitCount a
    let e0 : ℤ := (L : ℤ) - 1 - (sc : ℤ)
    let m0 := if L ≤ 6 then a * 10 ^ (6 - L) else rheNat a (L - 6)
    let me : ℕ × ℤ := if m0 = 10 ^ 6 then (10 ^ 5, e0 + 1) else (m0, e0)
    let m := me.1
    let e := me.2
    let D := stripTrailZeros (Nat.repr m)
    if e < -4 ∨ 6 ≤ e then
      let mant :=
        if D.length ≤ 1 then D
        else String.mk (D.data.take 1) ++ "." ++ String.mk (D.data.drop 1)
      sign ++ mant ++ expSuffix e
    else if 0 ≤ e then
      let k := e.natAbs + 1
      if D.length ≤ k then sign ++ D ++ zeroStr (k - D.length)
      else sign ++ String.mk (D.data.take k) ++ "." ++ String.mk (D.data.drop k)
    else
      sign ++ "0." ++ zeroStr (e.natAbs - 1) ++ D

/-- Embeds `format_size` (src/app.py:48-74). -/
def format_size (amount uom : String) : String :=
  if uom ≠ "" ∧ amount = "" then ""
  else
    let amount_str :=
      if amount ≠ "" then
        match parsePyFloat amount with
        | some d => pyFormatG d.1 d.2
        | none => pyStrip amount
      else ""
    let uom2 :=
      if uom ≠ "" then
        let u := pyStrip uom
        let uU := toUpperPy u
        if uU = "MILLIGRAMS" then "mg" else if uU = "GRAMS" then "g" else u
      else uom
    if amount_str ≠ "" ∨ uom2 ≠ "" then pyStrip (amount_str ++ " " ++ uom2)
    else ""

/-- Embeds `combine_columns` (src/app.py:76-86). -/
def combine_columns (row : Row) (columns : List String) (separator : String) : String :=
  let values :=
    columns.filterMap (fun col =>
      let v := pyStrip (rget row col "")
      if v = "" then none else some v)
  if values.isEmpty then "" else strJoin separator values

/-- Embeds `is_url` (src/app.py:98-103). -/
def is_url (text : String) : Bool :=
  if text = "" then false
  else
    let t := toLowerPy (pyStrip text)
    strStarts t "http://" || strStarts t "https://" || strStarts t "www."

/-- The structured failure reasons of `transform_row`.  The source returns a
message string directly; `renderErr` below reproduces those exact strings. -/
inductive TransformError where
  | emptyName : TransformError
  | nameIsUrl : String → TransformError
  | invalidClassification : String → TransformError
  | emptyCategory : TransformError
  | missingPotency : String → TransformError
deriving DecidableEq

/-- The exact error message strings built by `transform_row`
(src/app.py:120, 124, 137, 144, 164). -/
def renderErr : TransformError → String
  | .emptyName => "Both Menu Title and Name are empty"
  | .nameIsUrl n => "Name is a URL: " ++ n
  | .invalidClassification c =>
      "Invalid Classification: '" ++ c ++
        "' (must be: sativa, indica, hybrid, s/i, i/s, or cbd)"
  | .emptyCategory => "Empty Category"
  | .missingPotency cat => "Missing THC/CBD for " ++ cat

/-- The resolved display name (src/app.py:108-117): Menu Title, stripped, if
non-empty, else Name, stripped. -/
def finalName (row : Row) : String :=
  let menu_title_raw := rget row "Menu Title" ""
  let name_raw := rget row "Name" ""
  let menu_title := if menu_title_raw = "" then "" else pyStrip menu_title_raw
  let name := if name_raw = "" then "" else pyStrip name_raw
  if menu_title ≠ "" then menu_title else name

/-- The resolved classification (src/app.py:127-132): stripped, lowercased,
with the literal `"none"` replaced by the empty string. -/
def resolvedClass (row : Row) : String :=
  let c := toLowerPy (pyStrip (rget row "Classification" ""))
  if c = "none" then "" else c

/-- The fixed valid classification set (src/app.py:128). -/
def validClassifications : List String :=
  ["sativa", "indica", "hybrid", "s/i", "i/s", "cbd"]

/-- Category: the stripped `Product Type` input field (src/app.py:140). -/
def categoryOf (row : Row) : String := pyStrip (rget row "Product Type" "")

/-- Stripped `Doses` field (src/app.py:147). -/
def dosesOf (row : Row) : String := pyStrip (rget row "Doses" "")

/-- Units in Package (src/app.py:147-151): `Doses`, defaulting to `"1"`. -/
def unitsInPackage (row : Row) : String :=
  if dosesOf row = "" then "1" else dosesOf row

/-- The price input (src/app.py:154-156): stripped `Price/Tier`, defaulting to
`"0.01"`. -/
def priceRawOf (row : Row) : String :=
  let p := pyStrip (rget row "Price/Tier" "")
  if p = "" then "0.01" else p

/-- Whether the category requires THC/CBD values (src/app.py:159). -/
def needsPotency (row : Row) : Bool :=
  (["Edibles", "Topicals", "Tinctures"] : List String).contains (categoryOf row)

/-- Stripped `Total Mg THC` field (src/app.py:161). -/
def thcOf (row : Row) : String := pyStrip (rget row "Total Mg THC" "")

/-- Stripped `Total Mg CBD` field (src/app.py:162). -/
def cbdOf (row : Row) : String := pyStrip (rget row "Total Mg CBD" "")

/-- The four attribute columns combined into `Tags` (src/app.py:197-198). -/
def tagsCols : List String :=
  ["Attributes - General", "Attributes - Effects",
   "Attributes - Ingredients", "Attributes - Internal Tags"]

/-- The eight image columns combined into `Images` (src/app.py:201-202). -/
def imageCols : List String :=
  ["Image1", "Image2", "Image3", "Image4",
   "Image5", "Image6", "Image7", "Image8"]

/-- The output record built for an admitted row (src/app.py:166-232), in the
source's insertion order. -/
def buildOutput (row : Row) : List (String × String) :=
  let product_id_raw := rget row "Product ID" ""
  let flavors := pyStrip (rget row "Flavors" "")
  [("External ID", if pyStrip product_id_raw ≠ "" then pyStrip product_id_raw else ""),
   ("Name", finalName row),
   ("Product Type", rget row "Subtype" ""),
   ("Category", categoryOf row),
   ("Subcategory", "None"),
   ("Brand", rget row "Brand" ""),
   ("Strain", "Undefined"),
   ("Strain Prevalence",
     if resolvedClass row ≠ "" then rget row "Classification" "" else ""),
   ("Quality Line", "Bronze"),
   ("Product Description", rget row "Description" ""),
   ("Instructions", "None"),
   ("Attributes - Flavors", if flavors ≠ "" then flavors else "None"),
   ("Scents", "N/A"),
   ("Tags", combine_columns row tagsCols ","),
   ("Images", combine_columns row imageCols ","),
   ("Former Name", "N/A"),
   ("Variant Name", "N/A"),
   ("Size", format_size (rget row "Amount" "") (rget row "UoM" "")),
   ("Units in Package", unitsInPackage row),
   ("Price", format_price (priceRawOf row)),
   ("Medical Price", "N/A"),
   ("SKU", extract_short_barcodes (rget row "Product Barcodes" "")),
   ("THC / Unit", rget row "Total Mg THC" ""),
   ("CBD / Unit", rget row "Total Mg CBD" ""),
   ("Infused Content", "N/A"),
   ("Strength Level", extract_numeric_with_unit (rget row "Mg Per Dose" "") "mg"),
   ("Sale Type", "Medical and Recreational"),
   ("Barcode", extract_long_barcodes (rget row "Product Barcodes" "")),
   ("E-Commerce Enabled", "True"),
   ("Sell By Weight", "False")]

/-- Embeds `transform_row` (src/app.py:105-232): the validation chain, in source
order, then the output record.  Each early `return None, msg` of the source is
an `Except.error`. -/
def transform_row (row : Row) : Except TransformError (List (String × String)) :=
  if finalName row = "" then .error .emptyName
  else if is_url (finalName row) then .error (.nameIsUrl (finalName row))
  else if resolvedClass row ≠ "" ∧ resolvedClass row ∉ validClassifications then
    .error (.invalidClassification (rget row "Classification" ""))
  else if categoryOf row = "" then .error .emptyCategory
  else if needsPotency row ∧ (thcOf row = "" ∨ cbdOf row = "") then
    .error (.missingPotency (categoryOf row))
  else .ok (buildOutput row)

/-- Whether `transform_row` admits the row (the source's `if transformed:`;
the built record has 29 entries so it is never a falsy empty dict). -/
def isAdmitted (row : Row) : Bool :=
  match transform_row row with
  | .ok _ => true
  | .error _ => false

/-- The skipped-row annotation (src/app.py:285): the normalized row's
`Menu Title`, else its `Name`, else `"N/A"`. -/
def fallbackTitle (nr : Row) : String :=
  rget nr "Menu Title" (rget nr "Name" "N/A")

/-- The fixed output column list (src/app.py:247-254). -/
def outputColumns : List String :=
  ["External ID", "Name", "Product Type", "Category", "Subcategory",
   "Brand", "Strain", "Strain Prevalence", "Quality Line", "Product Description",
   "Instructions", "Attributes - Flavors", "Scents", "Tags", "Images",
   "Former Name", "Variant Name", "Size", "Units in Package", "Price",
   "Medical Price", "SKU", "THC / Unit", "CBD / Unit", "Infused Content",
   "Strength Level", "Sale Type", "Barcode", "E-Commerce Enabled", "Sell By Weight"]

/-- The loop of `process_csv` (src/app.py:267-285): `idx` is the source row
number of the head row; admitted records accumulate in order in the first
component, skipped-row entries `(idx, message, title)` in the second. -/
def processAux (idx : ℕ) : List Row → List (List (String × String)) × List (ℕ × String × String)
  | [] => ([], [])
  | r :: rest =>
      let nr := normalize_headers r
      let acc := processAux (idx + 1) rest
      match transform_row nr with
      | .ok t => (t :: acc.1, acc.2)
      | .error e => (acc.1, (idx, renderErr e, fallbackTitle nr) :: acc.2)

/-- Embeds the row loop of `process_csv` (src/app.py:256-296) on an already-parsed batch:
row numbering starts at 2, row 1 being the header.  (Reading the file's bytes,
the debug panel and the CSV re-serialization are I/O glue outside the model.) -/
def processRows (rows : List Row) : List (List (String × String)) × List (ℕ × String × String) :=
  processAux 2 rows

/-- Admission result of one raw row inside the loop: the transformed record,
if the (header-normalized) row is admitted. -/
def okOf (r : Row) : Option (List (String × String)) :=
  match transform_row (normalize_headers r) with
  | .ok t => some t
  | .error _ => none

/-! ### Definitions following the spec's words, for comparison with the source -/

/-- Whether `needle` occurs as a contiguous substring of the character list. -/
def listHasSub (needle : List Char) : List Char → Bool
  | [] => needle.isEmpty
  | c :: t => needle.isPrefixOf (c :: t) || listHasSub needle t

/-- Whether `needle` occurs as a substring of `hay`. -/
def strHasSub (hay needle : String) : Bool :=
  listHasSub needle.data hay.data

/-- From the claim's words (C2): the name, case-insensitively, contains
`PROMO` or `BOGO`, or contains a literal `$`. -/
def isPromotional (name : String) : Bool :=
  let up := toUpperPy name
  strHasSub up "PROMO" || strHasSub up "BOGO" || name.data.contains '$'

/-- From the claim's words (C4): strip one leading `$` character. -/
def dropLeadDollar (s : String) : String :=
  match s.data with
  | '$' :: r => String.mk r
  | _ => s

/-- From the claim's words (C4): the price formatter as the claim describes
it — strip a **leading** `$` and surrounding whitespace, parse the rest as a
decimal number, render with two decimal places, `$0.00` on empty input or
failed parse. -/
def format_price_claimed (price_str : String) : String :=
  if price_str = "" ∨ pyStrip price_str = "" then "$0.00"
  else
    let clean := pyStrip (dropLeadDollar (pyStrip price_str))
    match parsePyFloat clean with
    | some d => "$" ++ formatFixed2 d.1 d.2
    | none => "$0.00"

/-- The amended claim (C4): identical to the claimed formatter except that
**all** `$` characters are removed before parsing. -/
def format_price_amended (price_str : String) : String :=
  if price_str = "" ∨ pyStrip price_str = "" then "$0.00"
  else
    let clean_price := pyStrip (pyRemoveChar '$' price_str)
    match parsePyFloat clean_price with
    | some d => "$" ++ formatFixed2 d.1 d.2
    | none => "$0.00"

/-- From the claim's words (C5): remove a **leading** byte-order mark. -/
def dropLeadBom (s : String) : String :=
  match s.data with
  | c :: r => if c = bomChar then String.mk r else s
  | [] => s

/-- From the claim's words (C5): trim one layer of surrounding double- or
single-quote characters. -/
def trimOneQuoteLayer (s : String) : String :=
  let l := s.data
  if 2 ≤ l.length ∧
      ((l.head? = some '"' ∧ l.getLast? = some '"') ∨
       (l.head? = some '\'' ∧ l.getLast? = some '\'')) then
    String.mk ((l.drop 1).dropLast)
  else s

/-- From the claim's words (C5): the Header Normalizer as the claim describes
it — leading BOM removed, whitespace trimmed, one quote layer trimmed, and
fields whose name **becomes empty after normalization** dropped. -/
def normalize_headers_claimed (row : Row) : Row :=
  row.foldl
    (fun acc kv =>
      let k := trimOneQuoteLayer (pyStrip (dropLeadBom kv.1))
      if k = "" then acc else dictInsert acc k kv.2)
    []

/-- The amended claim (C5): all BOM characters removed, whitespace trimmed, no
quote trimming, and a field dropped exactly when its **original** name is
empty (a name that becomes empty after cleaning is kept under the empty key). -/
def normalize_headers_amended (row : Row) : Row :=
  row.foldl
    (fun acc kv =>
      if kv.1 = "" then acc
      else dictInsert acc (pyStrip (pyRemoveChar bomChar kv.1)) kv.2)
    []

/-- From the claim's words (C6): the leftmost nonempty run of an optional
integer part, optional decimal point, optional fractional digits. -/
def findNumRunClaimed : List Char → Option (List Char)
  | [] => none
  | c :: rest =>
      let m := numRunAt (c :: rest)
      if m.isEmpty then findNumRunClaimed rest else some m

/-- From the claim's words (C6): the numeric-with-unit extractor with the
integer part optional. -/
def extract_numeric_claimed (value_str : String) (unit : String) : String :=
  if value_str = "" ∨ pyStrip value_str = "" then "N/A"
  else
    match findNumRunClaimed value_str.data with
    | some run => String.mk run ++ unit
    | none => "N/A"

/-- The amended claim (C6): the run must start with a **required** integer
part of one or more digits, then an optional decimal point and optional
fractional digits; leftmost such run, greedy. -/
def extract_numeric_amended (value_str : String) (unit : String) : String :=
  if value_str = "" ∨ pyStrip value_str = "" then "N/A"
  else
    match findNumRun value_str.data with
    | some run => String.mk run ++ unit
    | none => "N/A"

/-- Left-pad a natural's decimal representation with zeros to `width`. -/
def padZeroNat (width : ℕ) (v : ℕ) : String :=
  let s := Nat.repr v
  zeroStr (width - s.length) ++ s

/-- Strip trailing zeros, then a trailing decimal point. -/
def stripTrailZeroDot (s : String) : String :=
  let r := s.data.reverse.dropWhile (fun c => c = '0')
  let r2 := match r with
    | '.' :: t => t
    | _ => r
  String.mk r2.reverse

/-- From the claim's words (C7): positional decimal rendering of `n / 10^sc`
with insignificant trailing zeros and the trailing decimal point removed. -/
def renderPlainStripped (n : ℤ) (sc : ℕ) : String :=
  let sign := if n < 0 then "-" else ""
  let a := n.natAbs
  if sc = 0 then sign ++ Nat.repr a
  else
    sign ++ stripTrailZeroDot (Nat.repr (a / 10 ^ sc) ++ "." ++ padZeroNat sc (a % 10 ^ sc))

/-- From the claim's words (C7): the size formatter with the parsed amount
reformatted by plain trailing-zero removal (no significant-digit limit, no
exponent notation). -/
def format_size_claimed (amount uom : String) : String :=
  if uom ≠ "" ∧ amount = "" then ""
  else
    let amount_str :=
      if amount ≠ "" then
        match parsePyFloat amount with
        | some d => renderPlainStripped d.1 d.2
        | none => pyStrip amount
      else ""
    let uom2 :=
      if uom ≠ "" then
        let u := pyStrip uom
        let uU := toUpperPy u
        if uU = "MILLIGRAMS" then "mg" else if uU = "GRAMS" then "g" else u
      else uom
    if amount_str ≠ "" ∨ uom2 ≠ "" then pyStrip (amount_str ++ " " ++ uom2)
    else ""

/-- The amended claim (C7): as the claim, but a successfully parsed amount is
rendered in CPython `%g` general format — at most six significant digits,
trailing zeros removed, exponent notation when the decimal exponent is at
least 6 or below -4. -/
def format_size_amended (amount uom : String) : String :=
  if uom ≠ "" ∧ amount = "" then ""
  else
    let amount_str :=
      if amount ≠ "" then
        match parsePyFloat amount with
        | some d => pyFormatG d.1 d.2
        | none => pyStrip amount
      else ""
    let uom2 :=
      if uom ≠ "" then
        let u := pyStrip uom
        let uU := toUpperPy u
        if uU = "MILLIGRAMS" then "mg" else if uU = "GRAMS" then "g" else u
      else uom
    if amount_str ≠ "" ∨ uom2 ≠ "" then pyStrip (amount_str ++ " " ++ uom2)
    else ""

/-! ### Concrete rows used by counterexamples and witnesses -/

/-- A valid row with External ID `X1`. -/
def rowBlueDream : Row :=
  [("Menu Title", "Blue Dream"), ("Product Type", "Flower"), ("Product ID", "X1")]

/-- A second valid row carrying the same External ID `X1`. -/
def rowGreenCrack : Row :=
  [("Menu Title", "Green Crack"), ("Product Type", "Flower"), ("Product ID", "X1")]

/-- A valid row whose name contains `BOGO` (the spec's own example). -/
def rowPromo : Row :=
  [("Menu Title", "Sale BOGO Special"), ("Product Type", "Flower")]

/-- A row with the invalid classification `purple`. -/
def rowPurple : Row :=
  [("Menu Title", "A"), ("Classification", "purple"), ("Product Type", "Flower")]

/-- A row with classification `None` (treated as empty). -/
def rowNone : Row :=
  [("Menu Title", "A"), ("Classification", "None"), ("Product Type", "Flower")]

/-- A row with a name but no category: fails with `Empty Category`. -/
def rowBadCat : Row := [("Menu Title", "Bad Row")]

/-! ### Shared lemmas -/

/-- The keys of a built output record, in order, are exactly the fixed
output column list. -/
theorem buildOutput_keys (row : Row) :
    (buildOutput row).map Prod.fst = outputColumns := rfl

/-- A successful transform returns exactly the built output record. -/
theorem transform_ok_eq (row : Row) (out : List (String × String))
    (h : transform_row row = Except.ok out) : out = buildOutput row := by
  unfold transform_row at h
  split_ifs at h
  all_goals simp_all

/-- Admission is success of `transform_row`. -/
theorem isAdmitted_iff (row : Row) :
    isAdmitted row = true ↔ ∃ o, transform_row row = Except.ok o := by
  unfold isAdmitted
  cases transform_row row with
  | ok v => simp
  | error e => simp

/-- Every rejection message of the source is a nonempty string. -/
theorem renderErr_ne_empty (e : TransformError) : renderErr e ≠ "" := by
  have happ : ∀ s t : String, s.data ≠ [] → s ++ t ≠ "" := by
    intro s t hs h
    have hd := congrArg String.data h
    rw [String.data_append] at hd
    rcases List.append_eq_nil.mp hd with ⟨h1, _⟩
    exact hs h1
  cases e with
  | emptyName => decide
  | nameIsUrl n => exact happ _ n (by decide)
  | invalidClassification c =>
      exact happ _ _ (by
        intro h
        rcases List.append_eq_nil.mp h with ⟨h1, _⟩
        exact (by decide : ("Invalid Classification: '" : String).data ≠ []) h1)
  | emptyCategory => decide
  | missingPotency cat => exact happ _ cat (by decide)

/-! ### C3, C4, C5, C6, C7 -/

/-- C3 counterexample: the claim (and the spec) count 29 output fields, but
the named fields External ID through Sell By Weight — exactly the keys of
every admitted record, and the source's `output_columns` — number 30. -/
theorem output_field_count_counterexample :
    transform_row rowBlueDream = Except.ok (buildOutput rowBlueDream) ∧
    (buildOutput rowBlueDream).map Prod.fst = outputColumns ∧
    outputColumns.length = 30 := ⟨rfl, rfl, rfl⟩

/-- C3 (amended): every record that passes validation yields a canonical
record whose fields are exactly the **30** named output columns (External ID
through Sell By Weight), in order, each bound to a (total, non-null) string
value — no field is ever absent.  (In the model a field value has type
`String`, so non-nullness is by construction; the content of the claim is
completeness and exact arity of the field set.) -/
theorem transformed_record_has_all_output_fields (row : Row)
    (out : List (String × String)) (h : transform_row row = Except.ok out) :
    out.map Prod.fst = outputColumns ∧ outputColumns.length = 30 := by
  rw [transform_ok_eq row out h]
  exact ⟨buildOutput_keys row, rfl⟩

/-- Witness for C3: a concrete admitted row has exactly the 30 fields. -/
theorem transformed_record_fields_witness :
    (buildOutput rowBlueDream).map Prod.fst = outputColumns ∧
      outputColumns.length = 30 :=
  transformed_record_has_all_output_fields rowBlueDream (buildOutput rowBlueDream) (by rfl)

/-- C4 counterexample: the claim says only a **leading** `$` is stripped, so
`"1$2"` should fail the numeric parse and give `$0.00`; the source removes
every `$` (`price_str.replace('$', '')`) and returns `$12.00`. -/
theorem format_price_counterexample :
    format_price "1$2" = "$12.00" ∧ format_price_claimed "1$2" = "$0.00" := by
  exact ⟨rfl, rfl⟩

/-- C4 (amended): the price formatter strips **all** `$` characters and
surrounding whitespace, parses the rest as a decimal number, and returns `$`
followed by the value with two decimal places; empty input or a failed parse
yields `$0.00`.  The claim's numeric examples all hold. -/
theorem format_price_matches_amended_spec :
    (∀ s, format_price s = format_price_amended s) ∧
    format_price "19.999" = "$20.00" ∧ format_price "" = "$0.00" ∧
    format_price "$12" = "$12.00" ∧ format_price "words" = "$0.00" := by
  exact ⟨fun _ => rfl, rfl, rfl, rfl, rfl⟩

/-- C5 counterexample: on `"Name"` in double quotes the source keeps the
quotes while the claim strips them; a blank name is kept by the source under
the empty key while the claim drops it; an interior BOM is removed by the
source while the claim removes only a leading one. -/
theorem normalize_headers_counterexample :
    normalize_headers [("\"Name\"", "v")] = [("\"Name\"", "v")] ∧
    normalize_headers_claimed [("\"Name\"", "v")] = [("Name", "v")] ∧
    normalize_headers [(" ", "v")] = [("", "v")] ∧
    normalize_headers_claimed [(" ", "v")] = [] ∧
    normalize_headers [("a﻿b", "v")] = [("ab", "v")] ∧
    normalize_headers_claimed [("a﻿b", "v")] = [("a﻿b", "v")] := by
  refine ⟨rfl, rfl, rfl, rfl, rfl, rfl⟩

/-- C5 (amended): the Header Normalizer removes **all** byte-order-mark
characters, trims surrounding whitespace, performs **no** quote trimming, and
drops exactly the fields whose **original** raw name is empty; a name that
becomes empty after normalization is kept under the empty key. -/
theorem normalize_headers_matches_amended_spec :
    ∀ row, normalize_headers row = normalize_headers_amended row :=
  fun _ => rfl

/-- C6 counterexample: the claim makes the integer part optional, so on `".5"`
it would match `".5"` and return `".5mg"`; the source regex `\d+\.?\d*`
requires a leading digit and returns `"5mg"`. -/
theorem extract_numeric_counterexample :
    extract_numeric_with_unit ".5" "mg" = "5mg" ∧
    extract_numeric_claimed ".5" "mg" = ".5mg" := by
  exact ⟨rfl, rfl⟩

/-- C6 (amended): the extractor finds the first contiguous run consisting of a
**required** integer part (one or more digits), an optional decimal point and
optional fractional digits, and returns it with the unit suffix; no such run
gives `"N/A"`, and empty input gives `"N/A"` directly. -/
theorem extract_numeric_matches_amended_spec :
    (∀ s u, extract_numeric_with_unit s u = extract_numeric_amended s u) ∧
    extract_numeric_with_unit "" "mg" = "N/A" ∧
    extract_numeric_with_unit "no digits here" "mg" = "N/A" ∧
    extract_numeric_with_unit "abc 12.5 xyz" "mg" = "12.5mg" := by
  exact ⟨fun _ _ => rfl, rfl, rfl, rfl⟩

/-- C7 counterexample: the claim says a parsed amount is reformatted only by
removing insignificant trailing zeros, so `"1000000"` would stay `"1000000"`;
the source formats through CPython `%g`, which switches to exponent notation
and yields `"1e+06"`. -/
theorem format_size_counterexample :
    format_size "1000000" "" = "1e+06" ∧
    format_size_claimed "1000000" "" = "1000000" := by
  exact ⟨rfl, rfl⟩

/-- C7 (amended): as the claim, except that a successfully parsed amount is
rendered in CPython `%g` general format (at most six significant digits,
trailing zeros removed, exponent notation when the decimal exponent is ≥ 6 or
< -4).  The claim's examples all hold. -/
theorem format_size_matches_amended_spec :
    (∀ a u, format_size a u = format_size_amended a u) ∧
    format_size "5.0" "MILLIGRAMS" = "5 mg" ∧
    format_size "" "GRAMS" = "" ∧
    format_size "3.50" "" = "3.5" := by
  exact ⟨fun _ _ => rfl, rfl, rfl, rfl⟩

/-! ### C1, C2, C8 -/

/-- C1 counterexample: two admissible rows sharing the non-empty External ID
`X1` both appear in the output, and no Rejection Entry is logged — the claim's
"exactly one record for that id" and "a Rejection Entry is logged" are both
false on the source, which performs no deduplication. -/
theorem dedup_claim_counterexample :
    (processRows [rowBlueDream, rowGreenCrack]).1.map
        (fun o => rget o "External ID" "") = ["X1", "X1"] ∧
    (processRows [rowBlueDream, rowGreenCrack]).2 = [] := ⟨rfl, rfl⟩

/-- C1 (amended): the pipeline performs no deduplication — for any two rows
admitted by the validator that share the same non-empty External ID, the
output contains both records, in input order, each with its own field values,
and no Rejection Entry is logged. -/
theorem process_keeps_both_records_with_same_external_id
    (r1 r2 : Row) (o1 o2 : List (String × String))
    (h1 : transform_row (normalize_headers r1) = Except.ok o1)
    (h2 : transform_row (normalize_headers r2) = Except.ok o2)
    (_hid : rget o1 "External ID" "" = rget o2 "External ID" "")
    (_hne : rget o1 "External ID" "" ≠ "") :
    processRows [r1, r2] = ([o1, o2], []) := by
  simp [processRows, processAux, h1, h2]

/-- Witness for C1's amended theorem at two concrete rows sharing id `X1`. -/
theorem process_keeps_both_records_witness :
    processRows [rowBlueDream, rowGreenCrack] =
      ([buildOutput (normalize_headers rowBlueDream),
        buildOutput (normalize_headers rowGreenCrack)], []) :=
  process_keeps_both_records_with_same_external_id rowBlueDream rowGreenCrack
    (buildOutput (normalize_headers rowBlueDream))
    (buildOutput (normalize_headers rowGreenCrack))
    (by rfl) (by rfl) (by rfl) (by decide)

/-- C2 counterexample: the spec's own example name `"Sale BOGO Special"`
(promotional by the claim's criterion, non-empty, not a URL) is **admitted**
by the source — `transform_row` contains no promotional-name check. -/
theorem promotional_name_not_rejected :
    finalName rowPromo = "Sale BOGO Special" ∧
    isPromotional (finalName rowPromo) = true ∧
    is_url (finalName rowPromo) = false ∧
    isAdmitted rowPromo = true := ⟨rfl, by decide, by decide, rfl⟩

/-- C2 (amended): the source has no `PromotionalName` rejection; a record is
admitted exactly when its resolved name is non-empty and not a URL, its
classification resolves to empty or a member of the valid set, its category is
non-empty, and — for the potency-requiring categories — THC and CBD values are
present.  Whether the name contains `PROMO`, `BOGO` or `$` plays no role. -/
theorem admission_iff_validator_checks (row : Row) :
    isAdmitted row = true ↔
      (finalName row ≠ "" ∧ is_url (finalName row) = false ∧
       ¬(resolvedClass row ≠ "" ∧ resolvedClass row ∉ validClassifications) ∧
       categoryOf row ≠ "" ∧
       ¬(needsPotency row = true ∧ (thcOf row = "" ∨ cbdOf row = ""))) := by
  rw [isAdmitted_iff]
  unfold transform_row
  split_ifs with h1 h2 h3 h4 h5
  all_goals simp_all

/-- C8: with the earlier name checks passed, the row is rejected as an invalid
classification — with the raw `Classification` text in the message — exactly
when the trimmed, lowercased classification (with literal `none` mapped to
empty) is non-empty and outside `{sativa, indica, hybrid, s/i, i/s, cbd}`. -/
theorem invalid_classification_iff (row : Row)
    (hname : finalName row ≠ "") (hurl : is_url (finalName row) = false) :
    transform_row row =
        Except.error (.invalidClassification (rget row "Classification" "")) ↔
      (resolvedClass row ≠ "" ∧ resolvedClass row ∉ validClassifications) := by
  unfold transform_row
  split_ifs with h1 h2 h3 h4 h5
  all_goals simp_all

/-- Witness for C8: classification `"purple"` is rejected as an invalid
classification; classification `"None"` is not (it resolves to empty). -/
theorem invalid_classification_witness :
    transform_row rowPurple = Except.error (.invalidClassification "purple") ∧
    transform_row rowNone ≠ Except.error (.invalidClassification "None") :=
  ⟨(invalid_classification_iff rowPurple (by decide) (by rfl)).mpr (by decide),
   fun h =>
     absurd ((invalid_classification_iff rowNone (by decide) (by rfl)).mp h)
       (by decide)⟩

/-! ### C9, C10 -/

/-- Unfolding of the loop on an admitted head row. -/
theorem processAux_cons_ok (idx : ℕ) (r : Row) (rest : List Row)
    (v : List (String × String))
    (h : transform_row (normalize_headers r) = Except.ok v) :
    processAux idx (r :: rest) =
      (v :: (processAux (idx + 1) rest).1, (processAux (idx + 1) rest).2) := by
  simp only [processAux, h]

/-- Unfolding of the loop on a rejected head row. -/
theorem processAux_cons_err (idx : ℕ) (r : Row) (rest : List Row)
    (e : TransformError)
    (h : transform_row (normalize_headers r) = Except.error e) :
    processAux idx (r :: rest) =
      ((processAux (idx + 1) rest).1,
       (idx, renderErr e, fallbackTitle (normalize_headers r))
         :: (processAux (idx + 1) rest).2) := by
  simp only [processAux, h]

/-- The admitted output of the loop is exactly the per-row admissions, in
order: the loop never drops or duplicates an admitted record. -/
theorem processAux_fst (idx : ℕ) (rows : List Row) :
    (processAux idx rows).1 = rows.filterMap okOf := by
  induction rows generalizing idx with
  | nil => rfl
  | cons r rest ih =>
      cases h : transform_row (normalize_headers r) with
      | ok v =>
          rw [processAux_cons_ok idx r rest v h]
          simp [okOf, h, ih]
      | error e =>
          rw [processAux_cons_err idx r rest e h]
          simp [okOf, h, ih]

/-- Every skipped entry produced from rows numbered from `idx` carries a row
number at least `idx`. -/
theorem processAux_snd_lb (idx : ℕ) (rows : List Row) :
    ∀ t ∈ (processAux idx rows).2, idx ≤ t.1 := by
  induction rows generalizing idx with
  | nil => intro t ht; simp [processAux] at ht
  | cons r rest ih =>
      intro t ht
      cases h : transform_row (normalize_headers r) with
      | ok v =>
          rw [processAux_cons_ok idx r rest v h] at ht
          exact Nat.le_of_succ_le (ih (idx + 1) t ht)
      | error e =>
          rw [processAux_cons_err idx r rest e h] at ht
          rcases List.mem_cons.mp ht with rfl | hmem
          · exact Nat.le_refl idx
          · exact Nat.le_of_succ_le (ih (idx + 1) t hmem)

/-- Each input row contributes exactly one line of output: admitted and
skipped counts sum to the batch size (no row aborts the loop). -/
theorem processAux_len (idx : ℕ) (rows : List Row) :
    (processAux idx rows).1.length + (processAux idx rows).2.length
      = rows.length := by
  induction rows generalizing idx with
  | nil => rfl
  | cons r rest ih =>
      cases h : transform_row (normalize_headers r) with
      | ok v =>
          rw [processAux_cons_ok idx r rest v h]
          simp only [List.length_cons]
          have := ih (idx + 1)
          omega
      | error e =>
          rw [processAux_cons_err idx r rest e h]
          simp only [List.length_cons]
          have := ih (idx + 1)
          omega

/-- A failing row at position `i` (numbered from `idx`) produces exactly one
skipped entry with its number, reason message, and display name. -/
theorem processAux_unique_entry (rows : List Row) :
    ∀ (idx i : ℕ) (h : i < rows.length) (e : TransformError),
      transform_row (normalize_headers (rows.get ⟨i, h⟩)) = Except.error e →
      (processAux idx rows).2.filter (fun t => t.1 = idx + i) =
        [(idx + i, renderErr e,
          fallbackTitle (normalize_headers (rows.get ⟨i, h⟩)))] := by
  induction rows with
  | nil => intro idx i h; exact absurd h (Nat.not_lt_zero i)
  | cons r rest ih =>
      intro idx i h e hfail
      cases i with
      | zero =>
          rw [processAux_cons_err idx r rest e hfail]
          simp only [Nat.add_zero, List.filter_cons]
          have hlb := processAux_snd_lb (idx + 1) rest
          have htail : (processAux (idx + 1) rest).2.filter
              (fun t => t.1 = idx) = [] := by
            rw [List.filter_eq_nil_iff]
            intro t ht
            have := hlb t ht
            simp only [decide_eq_true_eq]
            omega
          simp [htail]
      | succ j =>
          have hj : j < rest.length := Nat.lt_of_succ_lt_succ h
          have hfail' : transform_row (normalize_headers (rest.get ⟨j, hj⟩))
              = Except.error e := hfail
          have harith : idx + (j + 1) = (idx + 1) + j := by omega
          cases htr : transform_row (normalize_headers r) with
          | ok v =>
              rw [processAux_cons_ok idx r rest v htr, harith]
              exact ih (idx + 1) j hj e hfail'
          | error e2 =>
              rw [processAux_cons_err idx r rest e2 htr]
              rw [List.filter_cons]
              have hne : ¬ (idx = idx + (j + 1)) := by omega
              simp only [hne, decide_False, if_false]
              rw [harith]
              exact ih (idx + 1) j hj e hfail'

/-- C9: a source row that fails validation yields exactly one Rejection Entry,
carrying the validator's message and the row's original row number (the first
data row is numbered 2); the row contributes nothing to the output, every
other row is still processed (admitted rows appear exactly as their per-row
admissions), and admitted plus skipped entries account for the whole batch —
a failing row never aborts processing. -/
theorem process_rejects_failing_row (rows : List Row) (i : ℕ) (e : TransformError)
    (h : i < rows.length)
    (hfail : transform_row (normalize_headers (rows.get ⟨i, h⟩)) = Except.error e) :
    (processRows rows).2.filter (fun t => t.1 = i + 2) =
      [(i + 2, renderErr e, fallbackTitle (normalize_headers (rows.get ⟨i, h⟩)))] ∧
    (processRows rows).1 = rows.filterMap okOf ∧
    (processRows rows).1.length + (processRows rows).2.length = rows.length := by
  refine ⟨?_, processAux_fst 2 rows, processAux_len 2 rows⟩
  have heq : i + 2 = 2 + i := by omega
  rw [heq]
  exact processAux_unique_entry rows 2 i h e hfail

/-- Witness for C9: in a concrete two-row batch whose second row lacks a
category, exactly the entry `(3, "Empty Category", "Bad Row")` is logged, the
output holds only the first row's record, and 1 admitted + 1 skipped = 2. -/
theorem process_rejects_failing_row_witness :
    (processRows [rowBlueDream, rowBadCat]).2.filter (fun t => t.1 = 1 + 2) =
      [(1 + 2, renderErr .emptyCategory,
        fallbackTitle (normalize_headers rowBadCat))] ∧
    (processRows [rowBlueDream, rowBadCat]).1 =
      [rowBlueDream, rowBadCat].filterMap okOf ∧
    (processRows [rowBlueDream, rowBadCat]).1.length +
      (processRows [rowBlueDream, rowBadCat]).2.length = 2 :=
  process_rejects_failing_row [rowBlueDream, rowBadCat] 1 .emptyCategory
    (by decide) (by rfl)

/-- C10: the row transformation is total over records of string fields — it
always returns either a complete canonical record (all 30 output fields
present, bound to strings) with no error, or no record with a nonempty reason
string; numeric parsing and pattern matching never escape as a failure. -/
theorem transform_row_total (row : Row) :
    (∃ out, transform_row row = Except.ok out ∧
        out.map Prod.fst = outputColumns) ∨
    (∃ e, transform_row row = Except.error e ∧ renderErr e ≠ "") := by
  cases h : transform_row row with
  | ok out =>
      refine Or.inl ⟨out, rfl, ?_⟩
      rw [transform_ok_eq row out h]
      exact buildOutput_keys row
  | error e => exact Or.inr ⟨e, rfl, renderErr_ne_empty e⟩
